import Mathlib

/-
Shallow embedding of the tubely upload handlers
(`handler_upload_thumbnail.go`, the two `handlerUploadVideo` variants,
`getVideoAspectRatio`, `processVideoForFastStart`, `getVideoID`, `getUserID`).

External collaborators (uuid parsing, JWT validation, the record store, the
blob store, the filesystem and the spawned ffprobe/ffmpeg processes) are
modelled as oracle inputs: each handler takes, besides the configuration, a
structure holding the outcome each external call would produce, and returns
the ordered list of externally visible events the Go code performs.  The
branching, ordering and string computations of the handlers themselves are
translated statement by statement from the Go source, including the branches
where `respondWithError` is not followed by `return` (the Go code then falls
through and keeps executing, which the traces reproduce faithfully).

UUID values are modelled as strings; the Go zero value of a record is
modelled by `zeroVideoRecord`.
-/

/-- Modelled from the spec: the record store's video record (spec section 3:
identifier, owning user identifier, optional thumbnail URL, optional video
URL, plus descriptive fields, here `title` and `description`).  The
`database` package is not under `src/`. -/
structure VideoRecord where
  id : String
  userID : String
  thumbnailURL : Option String
  videoURL : Option String
  title : String
  description : String
deriving DecidableEq

/-- Go zero value of the record, used when `cfg.db.GetVideo` fails but the
handler keeps running (missing `return`). -/
def zeroVideoRecord : VideoRecord :=
  { id := "", userID := "", thumbnailURL := none, videoURL := none,
    title := "", description := "" }

/-- Server configuration fields the handlers read (`apiConfig`). -/
structure ApiConfig where
  s3Bucket : String
  s3Region : String
  assetsRoot : String
deriving DecidableEq

/-- The externally visible side effects and responses a handler performs, in
program order. -/
inductive Event where
  | parseForm
  | readAll (n : Nat)
  | dbGet (id : String)
  | createTemp
  | writeTemp (n : Nat)
  | spawn (tool : String)
  | createAsset (path : String)
  | writeAsset (path : String)
  | putObject (key : String) (ok : Bool)
  | dbUpdate (rec : VideoRecord) (ok : Bool)
  | respondError (status : Nat)
  | respondJSON (status : Nat)
deriving DecidableEq

/-- One stream object of the ffprobe JSON schema declared inside
`getVideoAspectRatio`. -/
structure StreamInfo where
  width : Int
  height : Int
  display_aspect_ratio : String
deriving DecidableEq

/-- The ffprobe JSON schema declared inside `getVideoAspectRatio`. -/
structure VideoData where
  streams : List StreamInfo
deriving DecidableEq

/-- Outcome of running ffprobe and unmarshalling its stdout: `cmd.Run`
returning an error, `json.Unmarshal` returning an error, or a parsed
`videoData` value. -/
inductive ProbeResult where
  | runError (e : String)
  | unmarshalError (e : String)
  | parsed (d : VideoData)
deriving DecidableEq

/-- Result of a Go function call that can also crash: a value, an error, or a
runtime panic (Go's `(string, error)` plus the panic behaviour of an
out-of-range slice index). -/
inductive GoRet (α : Type) where
  | ok (a : α)
  | err (e : String)
  | panicked (msg : String)
deriving DecidableEq

/-- `getVideoAspectRatio` (identical in `handler_upload_video.go` and the
second video-handler variant): on a probe run error or unmarshal error it
returns that error; otherwise it reads `data.Streams[0].DisplayAspectRatio`
— a Go slice index, which panics when `streams` is empty — and classifies
exactly "16:9" as landscape, exactly "9:16" as portrait, anything else as
other. -/
def getVideoAspectRatio (pr : ProbeResult) : GoRet String :=
  match pr with
  | .runError e => .err e
  | .unmarshalError e => .err e
  | .parsed data =>
    match data.streams with
    | [] => .panicked ("runtime error: index out of range [0] with length 0")
    | s :: _ =>
      if s.display_aspect_ratio = "16:9" then .ok ("landscape")
      else if s.display_aspect_ratio = "9:16" then .ok ("portrait")
      else .ok ("other")

deriving instance DecidableEq for Except

/-- Go `mime` package: the tspecial characters. -/
def tSpecialChars : List Char := "()<>@,;:\\\"/[]?=".toList

/-- Go `mime.isTSpecial`. -/
def isTSpecial (c : Char) : Bool := tSpecialChars.contains c

/-- Go `mime.isTokenChar`: printable ASCII that is not a tspecial. -/
def isTokenChar (c : Char) : Bool :=
  c.toNat > 0x20 && c.toNat < 0x7f && !(isTSpecial c)

/-- Split a character list on a separator character (the semantics of Go
`strings.Split` on one-character separators), written with structural
recursion so it evaluates definitionally. -/
def splitOnChar (sep : Char) : List Char → List (List Char)
  | [] => [[]]
  | c :: rest =>
    if c = sep then [] :: splitOnChar sep rest
    else
      match splitOnChar sep rest with
      | [] => [[c]]
      | g :: gs => (c :: g) :: gs

/-- Go `strings.TrimSpace` on a character list. -/
def trimChars (l : List Char) : List Char :=
  ((l.dropWhile Char.isWhitespace).reverse.dropWhile Char.isWhitespace).reverse

/-- Go `mime.checkMediaTypeDisposition`: the string must be a single token
or `token/token` with nonempty all-token-character parts.  (Equivalent to
the consumeToken-based original because `/` is a tspecial.) -/
def checkMediaTypeDisposition (s : List Char) : Bool :=
  match splitOnChar '/' s with
  | [t] => !t.isEmpty && t.all isTokenChar
  | [t, sub] => !t.isEmpty && t.all isTokenChar &&
      !sub.isEmpty && sub.all isTokenChar
  | _ => false

/-- The first return value of Go `mime.ParseMediaType` as the handlers use it
(they ignore the returned error): the part before the first `;`, trimmed and
lowercased; the empty string when that base is not a valid media type.
Parameter-syntax errors, which Go reports through the ignored error value,
are elided. -/
def parseMediaTypeValue (v : String) : String :=
  let mediatype :=
    (trimChars (v.toList.takeWhile (fun c => c ≠ ';'))).map Char.toLower
  if checkMediaTypeDisposition mediatype then ⟨mediatype⟩ else ("")

/-- `strings.Split(mediaType, "/")[1]` as used by the thumbnail handler
(reached only for allow-listed types, where index 1 exists). -/
def extOf (mediaType : String) : String :=
  ⟨(splitOnChar '/' mediaType.toList).getD 1 []⟩

/-- Oracle outcomes for every external call of `handlerUploadThumbnail`,
in the order the Go code makes them. -/
structure ThumbInput where
  videoIDResult : Except String String
  bearerResult : Except String String
  jwtResult : Except String String
  parseFormResult : Except String Unit
  formFileResult : Except String String
  readAllResult : Except String Nat
  getVideoResult : Except String VideoRecord
  createResult : Except String Unit
  copyResult : Except String Unit
  updateOk : Bool
deriving DecidableEq

/-- `handlerUploadThumbnail`: the event trace the Go handler performs on the
given oracle outcomes.  `formFileResult` carries the part's Content-Type
header on success; `readAllResult` the number of bytes buffered.  Every
error branch of this handler does `return` after `respondWithError`, so each
of them ends the trace. -/
def handlerUploadThumbnail (cfg : ApiConfig) (i : ThumbInput) : List Event :=
  match i.videoIDResult with
  | .error _ => [Event.respondError 400]
  | .ok videoID =>
  match i.bearerResult with
  | .error _ => [Event.respondError 401]
  | .ok _token =>
  match i.jwtResult with
  | .error _ => [Event.respondError 401]
  | .ok userID =>
  Event.parseForm ::
  match i.parseFormResult with
  | .error _ => [Event.respondError 400]
  | .ok _ =>
  match i.formFileResult with
  | .error _ => [Event.respondError 500]
  | .ok contentType =>
  let mediaType := parseMediaTypeValue contentType
  if mediaType ≠ "image/jpeg" ∧ mediaType ≠ "image/png" then
    [Event.respondError 415]
  else
  match i.readAllResult with
  | .error _ => [Event.respondError 500]
  | .ok n =>
  Event.readAll n ::
  Event.dbGet videoID ::
  match i.getVideoResult with
  | .error _ => [Event.respondError 500]
  | .ok video =>
  if video.userID ≠ userID then [Event.respondError 401]
  else
  let ext := extOf mediaType
  let filename := videoID ++ "." ++ ext
  Event.createAsset (cfg.assetsRoot ++ "/" ++ filename) ::
  match i.createResult with
  | .error _ => [Event.respondError 500]
  | .ok _ =>
  Event.writeAsset (cfg.assetsRoot ++ "/" ++ filename) ::
  match i.copyResult with
  | .error _ => [Event.respondError 500]
  | .ok _ =>
  let url := "http://localhost:8091/assets/" ++ videoID ++ "." ++ ext
  Event.dbUpdate { video with thumbnailURL := some url } i.updateOk ::
  if i.updateOk then [Event.respondJSON 200] else [Event.respondError 500]

/-- `getVideoID` (second video-handler variant): wraps `uuid.Parse`, whose
outcome is the oracle argument, mapping failure to the zero UUID. -/
def getVideoID (parseResult : Except String String) : Except String String :=
  match parseResult with
  | .error e => .error e
  | .ok videoID => .ok videoID

/-- `getUserID` (second video-handler variant): `auth.GetBearerToken` then
`auth.ValidateJWT`, both external, their outcomes given as oracles. -/
def getUserID (bearerResult jwtResult : Except String String) :
    Except String String :=
  match bearerResult with
  | .error e => .error e
  | .ok _token =>
    match jwtResult with
    | .error e => .error e
    | .ok userID => .ok userID

/-- `processVideoForFastStart`: builds `filepath + ".processing"`, runs
ffmpeg (outcome given as oracle), returns the output path on success and
`""` with the error otherwise. -/
def processVideoForFastStart (filepath : String)
    (runResult : Except String Unit) : Except String String :=
  match runResult with
  | .error e => .error e
  | .ok _ => .ok (filepath ++ ".processing")

/-- `cfg.db.GetVideo` error branch of both video handlers: responds 500 but
has no `return`, so the handler keeps running with the zero-value record. -/
def getVideoEvents : Except String VideoRecord → List Event
  | .error _ => [Event.respondError 500]
  | .ok _ => []

/-- The record value both video handlers continue with after `GetVideo`. -/
def getVideoValue : Except String VideoRecord → VideoRecord
  | .error _ => zeroVideoRecord
  | .ok v => v

/-- Ownership check of both video handlers: responds 401 on mismatch but has
no `return`, so the handler keeps running either way. -/
def ownershipEvents (video : VideoRecord) (userID : String) : List Event :=
  if video.userID ≠ userID then [Event.respondError 401] else []

/-- `os.CreateTemp` error branch of both video handlers: responds 500 but
has no `return`. -/
def createTempEvents : Except String Unit → List Event
  | .error _ => [Event.respondError 500]
  | .ok _ => []

/-- Oracle outcomes for every external call of the documented
`handlerUploadVideo` variant (src/unnamed/part_001), in the order the Go
code makes them. -/
structure VideoInput where
  videoIDResult : Except String String
  bearerResult : Except String String
  jwtResult : Except String String
  getVideoResult : Except String VideoRecord
  formFileResult : Except String String
  createTempResult : Except String Unit
  tmpName : String
  copyResult : Except String Nat
  probeResult : ProbeResult
  fastStartRunResult : Except String Unit
  openResult : Except String Unit
  randHex : String
  putOk : Bool
  updateOk : Bool
deriving DecidableEq

/-- Tail of the documented `handlerUploadVideo` variant after the
`getVideoAspectRatio` call: spawn ffmpeg via `processVideoForFastStart`
(error responds 500, no `return`), `os.Open` the processed file (error
responds 500, no `return`), build the key `{aspectRatio}/{randomHex}.mp4`,
`PutObject` (error responds 500 and returns), set `video.VideoURL` and
`UpdateVideo` (error responds 500 and returns), then respond 200. -/
def uploadVideoTail (cfg : ApiConfig) (i : VideoInput) (video : VideoRecord)
    (aspectRatio : String) : List Event :=
  Event.spawn ("ffmpeg") ::
  (match processVideoForFastStart i.tmpName i.fastStartRunResult with
   | .error _ => [Event.respondError 500]
   | .ok _ => []) ++
  (match i.openResult with
   | .error _ => [Event.respondError 500]
   | .ok _ => []) ++
  (let filename := aspectRatio ++ "/" ++ i.randHex ++ ".mp4"
   Event.putObject filename i.putOk ::
   if i.putOk then
     let videoUrl := "https://" ++ cfg.s3Bucket ++ ".s3." ++ cfg.s3Region ++
       ".amazonaws.com/" ++ filename
     Event.dbUpdate { video with videoURL := some videoUrl } i.updateOk ::
     (if i.updateOk then [Event.respondJSON 200] else [Event.respondError 500])
   else [Event.respondError 500])

/-- The documented `handlerUploadVideo` variant (src/unnamed/part_001): the
event trace the Go handler performs on the given oracle outcomes.  The
`http.MaxBytesReader` call on the first line discards its result, so the
request body is not actually wrapped and no size ceiling applies.  The
branches for `GetVideo`, the ownership check, `os.CreateTemp`,
`getVideoAspectRatio`, `processVideoForFastStart` and `os.Open` respond with
an error but are missing `return`, so the trace continues past them; a
probe panic (empty streams) aborts the handler. -/
def handlerUploadVideo (cfg : ApiConfig) (i : VideoInput) : List Event :=
  match getVideoID i.videoIDResult with
  | .error _ => [Event.respondError 400]
  | .ok videoID =>
  match getUserID i.bearerResult i.jwtResult with
  | .error _ => [Event.respondError 401]
  | .ok userID =>
  Event.dbGet videoID ::
  getVideoEvents i.getVideoResult ++
  (let video := getVideoValue i.getVideoResult
   ownershipEvents video userID ++
   match i.formFileResult with
   | .error _ => [Event.respondError 500]
   | .ok contentType =>
     let mediaType := parseMediaTypeValue contentType
     if mediaType ≠ "video/mp4" then [Event.respondError 415]
     else
       Event.createTemp ::
       createTempEvents i.createTempResult ++
       match i.copyResult with
       | .error _ => [Event.respondError 500]
       | .ok n =>
         Event.writeTemp n ::
         Event.spawn ("ffprobe") ::
         match getVideoAspectRatio i.probeResult with
         | .panicked _ => []
         | .err _ => Event.respondError 500 :: uploadVideoTail cfg i video ("")
         | .ok r => uploadVideoTail cfg i video r)

/-- Oracle outcomes for every external call of the `handlerUploadVideo`
variant in handler_upload_video.go, in the order the Go code makes them. -/
structure VideoAltInput where
  videoIDResult : Except String String
  bearerResult : Except String String
  jwtResult : Except String String
  getVideoResult : Except String VideoRecord
  formFileResult : Except String String
  createTempResult : Except String Unit
  copyResult : Except String Nat
  probeResult : ProbeResult
  randHex : String
  putOk : Bool
  updateOk : Bool
deriving DecidableEq

/-- Tail of the handler_upload_video.go variant after the
`getVideoAspectRatio` call: build the key `{aspectRatio}/{randomHex}.mp4`,
`PutObject` the temp file (error responds 500 and returns), set
`video.VideoURL` and `UpdateVideo` (error responds 500 and returns), then
respond 200. -/
def uploadVideoAltTail (cfg : ApiConfig) (i : VideoAltInput)
    (video : VideoRecord) (aspectRatio : String) : List Event :=
  let filename := aspectRatio ++ "/" ++ i.randHex ++ ".mp4"
  Event.putObject filename i.putOk ::
  if i.putOk then
    let videoUrl := "https://" ++ cfg.s3Bucket ++ ".s3." ++ cfg.s3Region ++
      ".amazonaws.com/" ++ filename
    Event.dbUpdate { video with videoURL := some videoUrl } i.updateOk ::
    (if i.updateOk then [Event.respondJSON 200] else [Event.respondError 500])
  else [Event.respondError 500]

/-- The `handlerUploadVideo` variant of handler_upload_video.go.  Same
shape as the documented variant except: no fast-start processing, and the
error returned by `getVideoAspectRatio` is assigned to `err` and never
checked at all — on a probe error the handler continues silently with the
empty aspect-ratio string (no error response).  `http.MaxBytesReader`'s
result is discarded here too, so no size ceiling applies. -/
def handlerUploadVideoAlt (cfg : ApiConfig) (i : VideoAltInput) : List Event :=
  match i.videoIDResult with
  | .error _ => [Event.respondError 400]
  | .ok videoID =>
  match i.bearerResult with
  | .error _ => [Event.respondError 401]
  | .ok _token =>
  match i.jwtResult with
  | .error _ => [Event.respondError 401]
  | .ok userID =>
  Event.dbGet videoID ::
  getVideoEvents i.getVideoResult ++
  (let video := getVideoValue i.getVideoResult
   ownershipEvents video userID ++
   match i.formFileResult with
   | .error _ => [Event.respondError 500]
   | .ok contentType =>
     let mediaType := parseMediaTypeValue contentType
     if mediaType ≠ "video/mp4" then [Event.respondError 415]
     else
       Event.createTemp ::
       createTempEvents i.createTempResult ++
       match i.copyResult with
       | .error _ => [Event.respondError 500]
       | .ok n =>
         Event.writeTemp n ::
         Event.spawn ("ffprobe") ::
         match getVideoAspectRatio i.probeResult with
         | .panicked _ => []
         | .err _ => uploadVideoAltTail cfg i video ("")
         | .ok r => uploadVideoAltTail cfg i video r)

/-- The record the request leaves in the record store, as a function of the
trace: the argument of the last successful `UpdateVideo` call, `none` when
no successful `UpdateVideo` happened (the record is then unchanged). -/
def committed : List Event → Option VideoRecord
  | [] => none
  | Event.dbUpdate r true :: rest =>
    (match committed rest with
     | some later => some later
     | none => some r)
  | _ :: rest => committed rest

/-- Whether the trace contains a 200 JSON response. -/
def hasOK200 : List Event → Bool
  | [] => false
  | Event.respondJSON s :: rest => s == 200 || hasOK200 rest
  | _ :: rest => hasOK200 rest

/-- Whether the trace contains an error response. -/
def hasErrorResponse : List Event → Bool
  | [] => false
  | Event.respondError _ :: _ => true
  | _ :: rest => hasErrorResponse rest

/-- A fully successful run: a 200 JSON response and no error response. -/
def isSuccess (tr : List Event) : Bool :=
  hasOK200 tr && !(hasErrorResponse tr)

/-- Publish-before-commit discipline of a trace: scanning left to right,
every `dbUpdate` event occurs only after some `putObject` event that
succeeded. -/
def putSeenBefore (seen : Bool) : List Event → Bool
  | [] => true
  | Event.putObject _ ok :: rest => putSeenBefore (seen || ok) rest
  | Event.dbUpdate _ _ :: rest => seen && putSeenBefore seen rest
  | _ :: rest => putSeenBefore seen rest

/-- Whether an external-call outcome is a success. -/
def exOk {α : Type} : Except String α → Bool
  | .ok _ => true
  | .error _ => false

/-- The declared Content-Type header carried by a `FormFile` outcome. -/
def declaredContentType : Except String String → String
  | .ok ct => ct
  | .error _ => ("")

/-- The thumbnail handler reaches its media-type check exactly when the
identifier parse, the two auth steps, the multipart parse and `FormFile`
all succeed. -/
def thumbReachedTypeCheck (i : ThumbInput) : Bool :=
  exOk i.videoIDResult && exOk i.bearerResult && exOk i.jwtResult &&
    exOk i.parseFormResult && exOk i.formFileResult

/-- The documented video handler reaches its media-type check exactly when
the identifier parse, `getUserID` and `FormFile` succeed (the `GetVideo`
and ownership failures do not stop it: their branches lack `return`). -/
def videoReachedTypeCheck (i : VideoInput) : Bool :=
  exOk (getVideoID i.videoIDResult) &&
    exOk (getUserID i.bearerResult i.jwtResult) && exOk i.formFileResult


/-- Server configuration used by the concrete runs below. -/
def exCfg : ApiConfig :=
  { s3Bucket := "tubely", s3Region := "us-east-1", assetsRoot := "assets" }

/-- A record owned by user `alice`. -/
def aliceRec : VideoRecord :=
  { id := "v1", userID := "alice", thumbnailURL := none, videoURL := none,
    title := "t", description := "d" }

/-- C1 failing input: a video upload request by authenticated user
`mallory` for the record owned by `alice`, with a valid mp4 body and all
external calls succeeding. -/
def c1Input : VideoInput :=
  { videoIDResult := Except.ok ("v1"), bearerResult := Except.ok ("tok"),
    jwtResult := Except.ok ("mallory"), getVideoResult := Except.ok aliceRec,
    formFileResult := Except.ok ("video/mp4"),
    createTempResult := Except.ok (), tmpName := "tmp",
    copyResult := Except.ok 1000,
    probeResult := ProbeResult.parsed
      { streams := [{ width := 1920, height := 1080,
                      display_aspect_ratio := "16:9" }] },
    fastStartRunResult := Except.ok (), openResult := Except.ok (),
    randHex := "ab", putOk := true, updateOk := true }

/-- C1: the claim says that when the requesting identity differs from the
record's owner the handler performs no externally visible side effect and
ownership verification precedes any staging I/O.  The code violates this:
`respondWithError` after the ownership check (and after `GetVideo`) is not
followed by `return`, so the handler sends the 401 and then still creates
the temp file, stages the body, spawns ffprobe and ffmpeg, uploads the blob
and commits the record. -/
theorem c1_ownership_failure_side_effects :
    handlerUploadVideo exCfg c1Input =
    [Event.dbGet ("v1"), Event.respondError 401, Event.createTemp,
     Event.writeTemp 1000, Event.spawn ("ffprobe"), Event.spawn ("ffmpeg"),
     Event.putObject ("landscape/ab.mp4") true,
     Event.dbUpdate
       { aliceRec with
           videoURL := some ("https://tubely.s3.us-east-1.amazonaws.com/landscape/ab.mp4") }
       true,
     Event.respondJSON 200] := by rfl

/-- C2 failing input: a video upload by the owner where ffprobe exits
non-zero and every later external call succeeds. -/
def c2Input : VideoInput :=
  { videoIDResult := Except.ok ("v1"), bearerResult := Except.ok ("tok"),
    jwtResult := Except.ok ("alice"), getVideoResult := Except.ok aliceRec,
    formFileResult := Except.ok ("video/mp4"),
    createTempResult := Except.ok (), tmpName := "tmp",
    copyResult := Except.ok 1000,
    probeResult := ProbeResult.runError ("exit status 1"),
    fastStartRunResult := Except.ok (), openResult := Except.ok (),
    randHex := "ab", putOk := true, updateOk := true }

/-- C2: the claim says every request that ends in an error response leaves
the record store unchanged.  The code violates this: on a probe failure the
documented handler responds 500 but is missing `return`, keeps running with
the empty aspect-ratio bucket, publishes the blob under the key
`/ab.mp4` and commits the record with the new video URL. -/
theorem c2_error_response_still_commits :
    handlerUploadVideo exCfg c2Input =
    [Event.dbGet ("v1"), Event.createTemp, Event.writeTemp 1000,
     Event.spawn ("ffprobe"), Event.respondError 500, Event.spawn ("ffmpeg"),
     Event.putObject ("/ab.mp4") true,
     Event.dbUpdate
       { aliceRec with
           videoURL := some ("https://tubely.s3.us-east-1.amazonaws.com//ab.mp4") }
       true,
     Event.respondJSON 200] ∧
    committed (handlerUploadVideo exCfg c2Input) =
      some { aliceRec with
        videoURL := some ("https://tubely.s3.us-east-1.amazonaws.com//ab.mp4") } := by
  constructor
  · rfl
  · rfl

/-- C3 failing input, video half: an upload whose body is 2 GiB, twice the
1 GiB ceiling, by the owner, everything else succeeding
(handler_upload_video.go). -/
def c3VideoInput : VideoAltInput :=
  { videoIDResult := Except.ok ("v1"), bearerResult := Except.ok ("tok"),
    jwtResult := Except.ok ("alice"), getVideoResult := Except.ok aliceRec,
    formFileResult := Except.ok ("video/mp4"),
    createTempResult := Except.ok (),
    copyResult := Except.ok 2147483648,
    probeResult := ProbeResult.parsed
      { streams := [{ width := 1920, height := 1080,
                      display_aspect_ratio := "16:9" }] },
    randHex := "ab", putOk := true, updateOk := true }

/-- C3 failing input, thumbnail half: a 20 MiB thumbnail body, twice the
10 MiB figure, by the owner, everything else succeeding. -/
def c3ThumbInput : ThumbInput :=
  { videoIDResult := Except.ok ("v1"), bearerResult := Except.ok ("tok"),
    jwtResult := Except.ok ("alice"), parseFormResult := Except.ok (),
    formFileResult := Except.ok ("image/jpeg"),
    readAllResult := Except.ok 20971520,
    getVideoResult := Except.ok aliceRec,
    createResult := Except.ok (), copyResult := Except.ok (),
    updateOk := true }

/-- C3: the claim says oversized bodies are rejected before the full body is
buffered or staged.  The code violates this: `http.MaxBytesReader`'s return
value is discarded on the first line of both video handlers, so no limit is
applied and the full 2 GiB body is copied into the temp file; the
thumbnail's `10 << 20` is `ParseMultipartForm`'s memory threshold, not a
ceiling, so the full 20 MiB body is buffered by `io.ReadAll`.  Both
requests succeed with no rejection. -/
theorem c3_oversized_body_fully_staged :
    handlerUploadVideoAlt exCfg c3VideoInput =
    [Event.dbGet ("v1"), Event.createTemp, Event.writeTemp 2147483648,
     Event.spawn ("ffprobe"), Event.putObject ("landscape/ab.mp4") true,
     Event.dbUpdate
       { aliceRec with
           videoURL := some ("https://tubely.s3.us-east-1.amazonaws.com/landscape/ab.mp4") }
       true,
     Event.respondJSON 200] ∧
    handlerUploadThumbnail exCfg c3ThumbInput =
    [Event.parseForm, Event.readAll 20971520, Event.dbGet ("v1"),
     Event.createAsset ("assets/v1.jpeg"), Event.writeAsset ("assets/v1.jpeg"),
     Event.dbUpdate
       { aliceRec with
           thumbnailURL := some ("http://localhost:8091/assets/v1.jpeg") }
       true,
     Event.respondJSON 200] := by
  constructor
  · rfl
  · rfl

/-- C5 failing input: a video upload by the owner where ffprobe exits
non-zero, every other external call succeeding (handler_upload_video.go,
where the probe error is assigned to `err` and never checked). -/
def c5Input : VideoAltInput :=
  { videoIDResult := Except.ok ("v1"), bearerResult := Except.ok ("tok"),
    jwtResult := Except.ok ("alice"), getVideoResult := Except.ok aliceRec,
    formFileResult := Except.ok ("video/mp4"),
    createTempResult := Except.ok (),
    copyResult := Except.ok 1000,
    probeResult := ProbeResult.runError ("exit status 1"),
    randHex := "ab", putOk := true, updateOk := true }

/-- C5: the claim says a probe failure fails the request and the pipeline
does not publish or commit with a defaulted aspect bucket.  The code
violates this: in handler_upload_video.go the error returned by
`getVideoAspectRatio` is never checked, so the handler proceeds silently
with the empty aspect string, publishes the blob under the defaulted key
`/ab.mp4`, commits the record and responds 200 — no error response at
all. -/
theorem c5_probe_failure_ignored :
    handlerUploadVideoAlt exCfg c5Input =
    [Event.dbGet ("v1"), Event.createTemp, Event.writeTemp 1000,
     Event.spawn ("ffprobe"), Event.putObject ("/ab.mp4") true,
     Event.dbUpdate
       { aliceRec with
           videoURL := some ("https://tubely.s3.us-east-1.amazonaws.com//ab.mp4") }
       true,
     Event.respondJSON 200] := by rfl

/-- C4: on a probe result that parsed and has a first stream, the
classification is exact: "16:9" gives landscape, "9:16" gives portrait, and
any other value of the display-aspect-ratio string (including the empty
string left by an absent field) gives other. -/
theorem c4_aspect_ratio_classification (d : VideoData) (s : StreamInfo)
    (rest : List StreamInfo) (h : d.streams = s :: rest) :
    (s.display_aspect_ratio = "16:9" →
      getVideoAspectRatio (ProbeResult.parsed d) = GoRet.ok ("landscape")) ∧
    (s.display_aspect_ratio = "9:16" →
      getVideoAspectRatio (ProbeResult.parsed d) = GoRet.ok ("portrait")) ∧
    (s.display_aspect_ratio ≠ "16:9" → s.display_aspect_ratio ≠ "9:16" →
      getVideoAspectRatio (ProbeResult.parsed d) = GoRet.ok ("other")) := by
  refine ⟨fun h1 => ?_, fun h2 => ?_, fun h1 h2 => ?_⟩ <;>
    simp [getVideoAspectRatio, h, *]

/-- C4 witness: a parsed probe output whose only stream carries the ratio
"4:3" is classified as other (and the empty ratio likewise). -/
theorem c4_aspect_ratio_classification_witness :
    getVideoAspectRatio
      (ProbeResult.parsed
        { streams := [{ width := 4, height := 3,
                        display_aspect_ratio := "4:3" }] }) =
      GoRet.ok ("other") :=
  (c4_aspect_ratio_classification
      { streams := [{ width := 4, height := 3,
                      display_aspect_ratio := "4:3" }] }
      { width := 4, height := 3, display_aspect_ratio := "4:3" } [] rfl).2.2
    (by decide) (by decide)

/-- C9 counterexample: a parsed probe output whose streams array is empty —
`{"streams": []}` unmarshals fine — makes `data.Streams[0]` panic: the
access is not in bounds and the function neither returns a classification
nor an error, refuting the claim. -/
theorem c9_counterexample_empty_streams_panics :
    getVideoAspectRatio (ProbeResult.parsed { streams := [] }) =
      GoRet.panicked ("runtime error: index out of range [0] with length 0") := by
  rfl

/-- C9 as amended: on every parsed probe output with at least one stream the
first-stream access is in bounds and the function returns a classification;
on a parsed output whose streams array is empty the access is out of bounds
and the code panics instead of returning. -/
theorem c9_amended_first_stream_totality (d : VideoData) :
    (d.streams = [] →
      getVideoAspectRatio (ProbeResult.parsed d) =
        GoRet.panicked ("runtime error: index out of range [0] with length 0")) ∧
    (∀ s rest, d.streams = s :: rest →
      ∃ r, getVideoAspectRatio (ProbeResult.parsed d) = GoRet.ok r) := by
  constructor
  · intro h
    simp [getVideoAspectRatio, h]
  · intro s rest h
    by_cases h1 : s.display_aspect_ratio = "16:9"
    · exact ⟨"landscape", by simp [getVideoAspectRatio, h, h1]⟩
    · by_cases h2 : s.display_aspect_ratio = "9:16"
      · exact ⟨"portrait", by simp [getVideoAspectRatio, h, h1, h2]⟩
      · exact ⟨"other", by simp [getVideoAspectRatio, h, h1, h2]⟩

/-- C9 amended-claim witness: a parsed output with one stream of ratio
"21:9" yields a classification. -/
theorem c9_amended_first_stream_totality_witness :
    ∃ r, getVideoAspectRatio
        (ProbeResult.parsed
          { streams := [{ width := 21, height := 9,
                          display_aspect_ratio := "21:9" }] }) =
      GoRet.ok r :=
  (c9_amended_first_stream_totality
      { streams := [{ width := 21, height := 9,
                      display_aspect_ratio := "21:9" }] }).2
    { width := 21, height := 9, display_aspect_ratio := "21:9" } [] rfl

theorem hasOK200_append (l1 l2 : List Event) :
    hasOK200 (l1 ++ l2) = (hasOK200 l1 || hasOK200 l2) := by
  induction l1 with
  | nil => rfl
  | cons e rest ih => cases e <;> simp [hasOK200, ih, Bool.or_assoc]

theorem hasErrorResponse_append (l1 l2 : List Event) :
    hasErrorResponse (l1 ++ l2) =
      (hasErrorResponse l1 || hasErrorResponse l2) := by
  induction l1 with
  | nil => rfl
  | cons e rest ih => cases e <;> simp [hasErrorResponse, ih]

/-- Merge of the committed-record views of two consecutive trace segments:
the later segment wins when it committed something. -/
def mergeCommit (a b : Option VideoRecord) : Option VideoRecord :=
  match b with
  | some r => some r
  | none => a

theorem committed_append (l1 l2 : List Event) :
    committed (l1 ++ l2) = mergeCommit (committed l1) (committed l2) := by
  induction l1 with
  | nil =>
    simp only [List.nil_append]
    cases h : committed l2 <;> simp [mergeCommit, h, committed]
  | cons e rest ih =>
    cases e with
    | dbUpdate r b =>
      cases b
      · simpa [committed] using ih
      · simp only [List.cons_append, committed, List.append_eq]
        rw [ih]
        cases h2 : committed l2 <;> cases h3 : committed rest <;>
          simp [mergeCommit, h2, h3]
    | _ =>
      simpa [committed] using ih

theorem putSeenBefore_cons_dbGet (seen : Bool) (id : String)
    (tr : List Event) :
    putSeenBefore seen (Event.dbGet id :: tr) = putSeenBefore seen tr := rfl

theorem putSeenBefore_cons_createTemp (seen : Bool) (tr : List Event) :
    putSeenBefore seen (Event.createTemp :: tr) = putSeenBefore seen tr := rfl

theorem putSeenBefore_cons_writeTemp (seen : Bool) (n : Nat)
    (tr : List Event) :
    putSeenBefore seen (Event.writeTemp n :: tr) = putSeenBefore seen tr := rfl

theorem putSeenBefore_cons_spawn (seen : Bool) (tool : String)
    (tr : List Event) :
    putSeenBefore seen (Event.spawn tool :: tr) = putSeenBefore seen tr := rfl

theorem putSeenBefore_cons_respondError (seen : Bool) (s : Nat)
    (tr : List Event) :
    putSeenBefore seen (Event.respondError s :: tr) =
      putSeenBefore seen tr := rfl

theorem putSeenBefore_getVideoEvents (r : Except String VideoRecord)
    (seen : Bool) (tr : List Event) :
    putSeenBefore seen (getVideoEvents r ++ tr) = putSeenBefore seen tr := by
  cases r <;> rfl

theorem putSeenBefore_ownershipEvents (v : VideoRecord) (u : String)
    (seen : Bool) (tr : List Event) :
    putSeenBefore seen (ownershipEvents v u ++ tr) = putSeenBefore seen tr := by
  unfold ownershipEvents
  split <;> rfl

theorem putSeenBefore_createTempEvents (r : Except String Unit)
    (seen : Bool) (tr : List Event) :
    putSeenBefore seen (createTempEvents r ++ tr) = putSeenBefore seen tr := by
  cases r <;> rfl

theorem putSeenBefore_uploadVideoTail (cfg : ApiConfig) (i : VideoInput)
    (v : VideoRecord) (ar : String) :
    putSeenBefore false (uploadVideoTail cfg i v ar) = true := by
  unfold uploadVideoTail processVideoForFastStart
  cases i.fastStartRunResult <;> cases i.openResult <;>
    cases hp : i.putOk <;> cases hu : i.updateOk <;> rfl

theorem putSeenBefore_uploadVideoAltTail (cfg : ApiConfig) (i : VideoAltInput)
    (v : VideoRecord) (ar : String) :
    putSeenBefore false (uploadVideoAltTail cfg i v ar) = true := by
  unfold uploadVideoAltTail
  cases hp : i.putOk <;> cases hu : i.updateOk <;> rfl

/-- C8: in every trace either video handler can produce, a record update is
only ever reached after the blob write has already succeeded
(`putSeenBefore false tr` scans the trace and rejects any `dbUpdate` not
preceded by a succeeded `putObject`); in particular when `PutObject` fails
the commit is never attempted, since the only `putObject` event then carries
`false` and the handler returns before `UpdateVideo`. -/
theorem c8_publish_before_commit :
    (∀ cfg i, putSeenBefore false (handlerUploadVideo cfg i) = true) ∧
    (∀ cfg i, putSeenBefore false (handlerUploadVideoAlt cfg i) = true) := by
  constructor
  · intro cfg i
    unfold handlerUploadVideo
    cases hv : i.videoIDResult with
    | error e => rfl
    | ok videoID =>
      cases hb : i.bearerResult with
      | error e => rfl
      | ok tok =>
        cases hj : i.jwtResult with
        | error e => rfl
        | ok userID =>
          simp only [getVideoID, getUserID, List.cons_append,
            List.append_assoc]
          rw [putSeenBefore_cons_dbGet, putSeenBefore_getVideoEvents,
            putSeenBefore_ownershipEvents]
          cases hf : i.formFileResult with
          | error e => rfl
          | ok contentType =>
            dsimp only
            split
            · rfl
            · rw [putSeenBefore_cons_createTemp,
                putSeenBefore_createTempEvents]
              cases hc : i.copyResult with
              | error e => rfl
              | ok n =>
                dsimp only
                rw [putSeenBefore_cons_writeTemp, putSeenBefore_cons_spawn]
                cases hpr : i.probeResult with
                | runError e =>
                  simp only [getVideoAspectRatio]
                  rw [putSeenBefore_cons_respondError]
                  exact putSeenBefore_uploadVideoTail cfg i _ ("")
                | unmarshalError e =>
                  simp only [getVideoAspectRatio]
                  rw [putSeenBefore_cons_respondError]
                  exact putSeenBefore_uploadVideoTail cfg i _ ("")
                | parsed d =>
                  obtain ⟨streams⟩ := d
                  cases streams with
                  | nil => rfl
                  | cons s rest =>
                    simp only [getVideoAspectRatio]
                    split_ifs with h1 h2
                    · exact putSeenBefore_uploadVideoTail cfg i _ ("landscape")
                    · exact putSeenBefore_uploadVideoTail cfg i _ ("portrait")
                    · exact putSeenBefore_uploadVideoTail cfg i _ ("other")
  · intro cfg i
    unfold handlerUploadVideoAlt
    cases hv : i.videoIDResult with
    | error e => rfl
    | ok videoID =>
      cases hb : i.bearerResult with
      | error e => rfl
      | ok tok =>
        cases hj : i.jwtResult with
        | error e => rfl
        | ok userID =>
          dsimp only
          simp only [List.cons_append, List.append_assoc]
          rw [putSeenBefore_cons_dbGet, putSeenBefore_getVideoEvents,
            putSeenBefore_ownershipEvents]
          cases hf : i.formFileResult with
          | error e => rfl
          | ok contentType =>
            dsimp only
            split
            · rfl
            · rw [putSeenBefore_cons_createTemp,
                putSeenBefore_createTempEvents]
              cases hc : i.copyResult with
              | error e => rfl
              | ok n =>
                dsimp only
                rw [putSeenBefore_cons_writeTemp, putSeenBefore_cons_spawn]
                cases hpr : i.probeResult with
                | runError e =>
                  simp only [getVideoAspectRatio]
                  exact putSeenBefore_uploadVideoAltTail cfg i _ ("")
                | unmarshalError e =>
                  simp only [getVideoAspectRatio]
                  exact putSeenBefore_uploadVideoAltTail cfg i _ ("")
                | parsed d =>
                  obtain ⟨streams⟩ := d
                  cases streams with
                  | nil => rfl
                  | cons s rest =>
                    simp only [getVideoAspectRatio]
                    split_ifs with h1 h2
                    · exact putSeenBefore_uploadVideoAltTail cfg i _ ("landscape")
                    · exact putSeenBefore_uploadVideoAltTail cfg i _ ("portrait")
                    · exact putSeenBefore_uploadVideoAltTail cfg i _ ("other")

/-- C7 counterexample input: declared content type "IMAGE/PNG; X=1" — upper
case and carrying a parameter, so not an exact string match against either
allow-list entry — on an otherwise valid owned thumbnail upload. -/
def c7Input : ThumbInput :=
  { videoIDResult := Except.ok ("v1"), bearerResult := Except.ok ("tok"),
    jwtResult := Except.ok ("alice"), parseFormResult := Except.ok (),
    formFileResult := Except.ok ("IMAGE/PNG; X=1"),
    readAllResult := Except.ok 5,
    getVideoResult := Except.ok aliceRec,
    createResult := Except.ok (), copyResult := Except.ok (),
    updateOk := true }

/-- C7 counterexample: the claim says any declared type string that is not
an exact match against the allow-list — including variants with parameters
or different letter casing — is rejected with 415.  The code instead runs
the header through `mime.ParseMediaType`, which lowercases it and strips
parameters, so "IMAGE/PNG; X=1" is accepted and the upload fully
succeeds. -/
theorem c7_counterexample_casing_accepted :
    handlerUploadThumbnail exCfg c7Input =
    [Event.parseForm, Event.readAll 5, Event.dbGet ("v1"),
     Event.createAsset ("assets/v1.png"), Event.writeAsset ("assets/v1.png"),
     Event.dbUpdate
       { aliceRec with
           thumbnailURL := some ("http://localhost:8091/assets/v1.png") }
       true,
     Event.respondJSON 200] := by rfl

theorem no415_uploadVideoTail (cfg : ApiConfig) (i : VideoInput)
    (v : VideoRecord) (ar : String) :
    Event.respondError 415 ∉ uploadVideoTail cfg i v ar := by
  unfold uploadVideoTail processVideoForFastStart
  cases i.fastStartRunResult <;> cases i.openResult <;>
    cases hp : i.putOk <;> cases hu : i.updateOk <;> simp

/-- C7 as amended: an upload is rejected with 415 exactly when the request
reaches the media-type check and the canonical parse of the declared
content-type — lowercased, parameters stripped, as `mime.ParseMediaType`
returns it — is not an exact match against the allow-list ({image/jpeg,
image/png} for thumbnails, {video/mp4} for the documented video handler);
casing variants and parameter-bearing variants of an allowed type are
therefore accepted. -/
theorem c7_amended_canonicalized_allowlist :
    (∀ cfg i, (Event.respondError 415 ∈ handlerUploadThumbnail cfg i) ↔
      (thumbReachedTypeCheck i = true ∧
       parseMediaTypeValue (declaredContentType i.formFileResult) ≠ "image/jpeg" ∧
       parseMediaTypeValue (declaredContentType i.formFileResult) ≠ "image/png")) ∧
    (∀ cfg i, (Event.respondError 415 ∈ handlerUploadVideo cfg i) ↔
      (videoReachedTypeCheck i = true ∧
       parseMediaTypeValue (declaredContentType i.formFileResult) ≠ "video/mp4")) := by
  constructor
  · intro cfg i
    rcases i with ⟨vid, bear, jwt, pf, ff, ra, gv, cr, cp, up⟩
    cases vid with
    | error e => simp [handlerUploadThumbnail, thumbReachedTypeCheck, exOk]
    | ok videoID =>
    cases bear with
    | error e => simp [handlerUploadThumbnail, thumbReachedTypeCheck, exOk]
    | ok tok =>
    cases jwt with
    | error e => simp [handlerUploadThumbnail, thumbReachedTypeCheck, exOk]
    | ok userID =>
    cases pf with
    | error e => simp [handlerUploadThumbnail, thumbReachedTypeCheck, exOk]
    | ok u =>
    cases ff with
    | error e => simp [handlerUploadThumbnail, thumbReachedTypeCheck, exOk]
    | ok ct =>
      simp only [handlerUploadThumbnail, thumbReachedTypeCheck, exOk,
        declaredContentType]
      by_cases hmt : parseMediaTypeValue ct ≠ "image/jpeg" ∧
          parseMediaTypeValue ct ≠ "image/png"
      · rw [if_pos hmt]
        simp [hmt.1, hmt.2]
      · rw [if_neg hmt]
        apply iff_of_false
        · cases ra <;> cases gv <;> cases cr <;> cases cp <;> cases up <;>
            (try simp_all) <;> (try split_ifs) <;> (try simp_all)
        · intro hrhs
          exact hmt ⟨hrhs.2.1, hrhs.2.2⟩
  · intro cfg i
    rcases i with ⟨vid, bear, jwt, gv, ff, ctr, tmp, cp, pr, fsr, opr, rh,
      pOk, uOk⟩
    cases vid with
    | error e =>
      simp [handlerUploadVideo, videoReachedTypeCheck, getVideoID, getUserID,
        exOk]
    | ok videoID =>
    cases bear with
    | error e =>
      simp [handlerUploadVideo, videoReachedTypeCheck, getVideoID, getUserID,
        exOk]
    | ok tok =>
    cases jwt with
    | error e =>
      simp [handlerUploadVideo, videoReachedTypeCheck, getVideoID, getUserID,
        exOk]
    | ok userID =>
    cases ff with
    | error e =>
      apply iff_of_false
      · cases gv <;>
          simp_all [handlerUploadVideo, getVideoID, getUserID,
            getVideoEvents, getVideoValue, ownershipEvents]
      · intro hrhs
        have := hrhs.1
        simp [videoReachedTypeCheck, exOk] at this
    | ok ct =>
      simp only [handlerUploadVideo, videoReachedTypeCheck, getVideoID,
        getUserID, exOk, declaredContentType]
      by_cases hmt : parseMediaTypeValue ct ≠ "video/mp4"
      · rw [if_pos hmt]
        apply iff_of_true
        · cases gv <;>
            simp [getVideoEvents, getVideoValue, ownershipEvents]
        · exact ⟨rfl, hmt⟩
      · rw [if_neg hmt]
        apply iff_of_false
        · cases gv <;> cases ctr <;> cases cp <;>
            rcases pr with e | e | ⟨⟨streams⟩⟩ <;> (try cases streams) <;>
            (try simp_all [getVideoEvents, ownershipEvents, createTempEvents,
              getVideoAspectRatio, getVideoValue, no415_uploadVideoTail]) <;>
            (try split_ifs) <;>
            (try simp_all [no415_uploadVideoTail])
        · intro hrhs
          exact hmt hrhs.2

/-- C6: every fully successful thumbnail upload commits the record with the
thumbnail URL set to `{baseURL}/assets/{videoID}.{ext}` where the base URL
is the handler's `http://localhost:8091`, `videoID` is the parsed resource
identifier and `ext` is the file extension of the parsed declared media
type — a value depending only on the resource identifier and the media
type, so two uploads of the same media type to the same video record yield
the same URL. -/
theorem c6_thumbnail_url_deterministic (cfg : ApiConfig) (i : ThumbInput)
    (vid ct : String) (v : VideoRecord)
    (hvid : i.videoIDResult = Except.ok vid)
    (hct : i.formFileResult = Except.ok ct)
    (hv : i.getVideoResult = Except.ok v)
    (hs : isSuccess (handlerUploadThumbnail cfg i) = true) :
    committed (handlerUploadThumbnail cfg i) =
      some { v with
        thumbnailURL := some ("http://localhost:8091/assets/" ++ vid ++ "." ++ extOf (parseMediaTypeValue ct)) } := by
  simp only [handlerUploadThumbnail, hvid, hct, hv] at hs ⊢
  cases hb : i.bearerResult with
  | error e => simp [hb, isSuccess, hasOK200, hasErrorResponse] at hs
  | ok tok =>
  simp only [hb] at hs ⊢
  cases hj : i.jwtResult with
  | error e => simp [hj, isSuccess, hasOK200, hasErrorResponse] at hs
  | ok userID =>
  simp only [hj] at hs ⊢
  cases hp : i.parseFormResult with
  | error e => simp [hp, isSuccess, hasOK200, hasErrorResponse] at hs
  | ok u =>
  simp only [hp] at hs ⊢
  by_cases hmt : parseMediaTypeValue ct ≠ "image/jpeg" ∧
      parseMediaTypeValue ct ≠ "image/png"
  · rw [if_pos hmt] at hs
    simp [isSuccess, hasOK200, hasErrorResponse] at hs
  · rw [if_neg hmt] at hs ⊢
    cases hr : i.readAllResult with
    | error e => simp [hr, isSuccess, hasOK200, hasErrorResponse] at hs
    | ok n =>
    simp only [hr] at hs ⊢
    by_cases how : v.userID ≠ userID
    · rw [if_pos how] at hs
      simp [isSuccess, hasOK200, hasErrorResponse] at hs
    · rw [if_neg how] at hs ⊢
      cases hcr : i.createResult with
      | error e => simp [hcr, isSuccess, hasOK200, hasErrorResponse] at hs
      | ok u2 =>
      simp only [hcr] at hs ⊢
      cases hcp : i.copyResult with
      | error e => simp [hcp, isSuccess, hasOK200, hasErrorResponse] at hs
      | ok u3 =>
      simp only [hcp] at hs ⊢
      cases hup : i.updateOk with
      | false => simp [hup, isSuccess, hasOK200, hasErrorResponse] at hs
      | true =>
      simp only [hup] at hs ⊢
      simp [committed]

/-- C6 witness input: an owned jpeg thumbnail upload that fully succeeds. -/
def c6Input : ThumbInput :=
  { videoIDResult := Except.ok ("v1"), bearerResult := Except.ok ("tok"),
    jwtResult := Except.ok ("alice"), parseFormResult := Except.ok (),
    formFileResult := Except.ok ("image/jpeg"),
    readAllResult := Except.ok 5,
    getVideoResult := Except.ok aliceRec,
    createResult := Except.ok (), copyResult := Except.ok (),
    updateOk := true }

/-- C6 witness: the jpeg upload above commits the thumbnail URL
`http://localhost:8091/assets/v1.jpeg`. -/
theorem c6_thumbnail_url_deterministic_witness :
    committed (handlerUploadThumbnail exCfg c6Input) =
      some { aliceRec with
        thumbnailURL := some ("http://localhost:8091/assets/v1.jpeg") } :=
  c6_thumbnail_url_deterministic exCfg c6Input ("v1") ("image/jpeg") aliceRec
    rfl rfl rfl (by rfl)

/-- C10: every fully successful upload commits exactly the record the store
returned with a single field replaced — the thumbnail URL for a thumbnail
upload, the video URL for a video upload — leaving the identifier, the
owner identifier, the other URL and the descriptive fields unchanged. -/
theorem c10_single_field_frame :
    (∀ cfg (i : ThumbInput) v, i.getVideoResult = Except.ok v →
      isSuccess (handlerUploadThumbnail cfg i) = true →
      ∃ u, committed (handlerUploadThumbnail cfg i) =
        some { v with thumbnailURL := some u }) ∧
    (∀ cfg (i : VideoInput) v, i.getVideoResult = Except.ok v →
      isSuccess (handlerUploadVideo cfg i) = true →
      ∃ u, committed (handlerUploadVideo cfg i) =
        some { v with videoURL := some u }) := by
  constructor
  · intro cfg i v hv hs
    simp only [handlerUploadThumbnail, hv] at hs ⊢
    cases hvid : i.videoIDResult with
    | error e => simp [hvid, isSuccess, hasOK200, hasErrorResponse] at hs
    | ok vid =>
    simp only [hvid] at hs ⊢
    cases hb : i.bearerResult with
    | error e => simp [hb, isSuccess, hasOK200, hasErrorResponse] at hs
    | ok tok =>
    simp only [hb] at hs ⊢
    cases hj : i.jwtResult with
    | error e => simp [hj, isSuccess, hasOK200, hasErrorResponse] at hs
    | ok userID =>
    simp only [hj] at hs ⊢
    cases hp : i.parseFormResult with
    | error e => simp [hp, isSuccess, hasOK200, hasErrorResponse] at hs
    | ok u =>
    simp only [hp] at hs ⊢
    cases hf : i.formFileResult with
    | error e => simp [hf, isSuccess, hasOK200, hasErrorResponse] at hs
    | ok ct =>
    simp only [hf] at hs ⊢
    by_cases hmt : parseMediaTypeValue ct ≠ "image/jpeg" ∧
        parseMediaTypeValue ct ≠ "image/png"
    · rw [if_pos hmt] at hs
      simp [isSuccess, hasOK200, hasErrorResponse] at hs
    · rw [if_neg hmt] at hs ⊢
      cases hr : i.readAllResult with
      | error e => simp [hr, isSuccess, hasOK200, hasErrorResponse] at hs
      | ok n =>
      simp only [hr] at hs ⊢
      by_cases how : v.userID ≠ userID
      · rw [if_pos how] at hs
        simp [isSuccess, hasOK200, hasErrorResponse] at hs
      · rw [if_neg how] at hs ⊢
        cases hcr : i.createResult with
        | error e => simp [hcr, isSuccess, hasOK200, hasErrorResponse] at hs
        | ok u2 =>
        simp only [hcr] at hs ⊢
        cases hcp : i.copyResult with
        | error e => simp [hcp, isSuccess, hasOK200, hasErrorResponse] at hs
        | ok u3 =>
        simp only [hcp] at hs ⊢
        cases hup : i.updateOk with
        | false => simp [hup, isSuccess, hasOK200, hasErrorResponse] at hs
        | true =>
        simp only [hup] at hs ⊢
        exact ⟨_, rfl⟩
  · intro cfg i v hv hs
    simp only [handlerUploadVideo, getVideoID, getUserID, hv, getVideoEvents,
      getVideoValue, ownershipEvents, List.cons_append, List.nil_append,
      List.append_assoc] at hs ⊢
    cases hvid : i.videoIDResult with
    | error e => simp [hvid, isSuccess, hasOK200, hasErrorResponse] at hs
    | ok vid =>
    simp only [hvid] at hs ⊢
    cases hb : i.bearerResult with
    | error e => simp [hb, isSuccess, hasOK200, hasErrorResponse] at hs
    | ok tok =>
    simp only [hb] at hs ⊢
    cases hj : i.jwtResult with
    | error e => simp [hj, isSuccess, hasOK200, hasErrorResponse] at hs
    | ok userID =>
    simp only [hj] at hs ⊢
    by_cases how : v.userID ≠ userID
    · rw [if_pos how] at hs
      simp [isSuccess, hasOK200, hasErrorResponse, List.cons_append,
        List.nil_append] at hs
    · rw [if_neg how] at hs ⊢
      simp only [List.nil_append] at hs ⊢
      cases hf : i.formFileResult with
      | error e => simp [hf, isSuccess, hasOK200, hasErrorResponse] at hs
      | ok ct =>
      simp only [hf] at hs ⊢
      by_cases hmt : parseMediaTypeValue ct ≠ "video/mp4"
      · rw [if_pos hmt] at hs
        simp [isSuccess, hasOK200, hasErrorResponse] at hs
      · rw [if_neg hmt] at hs ⊢
        cases hct : i.createTempResult with
        | error e =>
          simp [hct, createTempEvents, isSuccess, hasOK200, hasErrorResponse,
            List.cons_append, List.nil_append] at hs
        | ok u0 =>
        simp only [hct, createTempEvents, List.nil_append] at hs ⊢
        cases hcp : i.copyResult with
        | error e => simp [hcp, isSuccess, hasOK200, hasErrorResponse] at hs
        | ok n =>
        simp only [hcp] at hs ⊢
        cases hpr : i.probeResult with
        | runError e =>
          simp [hpr, getVideoAspectRatio, isSuccess, hasOK200,
            hasErrorResponse] at hs
        | unmarshalError e =>
          simp [hpr, getVideoAspectRatio, isSuccess, hasOK200,
            hasErrorResponse] at hs
        | parsed d =>
        obtain ⟨streams⟩ := d
        cases streams with
        | nil =>
          simp [hpr, getVideoAspectRatio, isSuccess, hasOK200,
            hasErrorResponse] at hs
        | cons s rest =>
        simp only [hpr, getVideoAspectRatio] at hs ⊢
        by_cases h1 : s.display_aspect_ratio = "16:9" <;>
          [skip; by_cases h2 : s.display_aspect_ratio = "9:16"] <;>
          simp only [h1, if_true, if_false, if_pos, if_neg, ite_true,
            ite_false] at hs ⊢ <;>
          (try simp only [h1, h2, ite_true, ite_false, if_pos, if_neg] at hs ⊢) <;>
          · simp only [uploadVideoTail, processVideoForFastStart,
              List.cons_append, List.nil_append] at hs ⊢
            cases hfs : i.fastStartRunResult with
            | error e =>
              simp [hfs, isSuccess, hasOK200, hasErrorResponse,
                List.cons_append, List.nil_append] at hs
            | ok u1 =>
            simp only [hfs, List.nil_append] at hs ⊢
            cases hop : i.openResult with
            | error e =>
              simp [hop, isSuccess, hasOK200, hasErrorResponse,
                List.cons_append, List.nil_append] at hs
            | ok u2 =>
            simp only [hop, List.nil_append] at hs ⊢
            cases hpo : i.putOk with
            | false => simp [hpo, isSuccess, hasOK200, hasErrorResponse] at hs
            | true =>
            simp only [hpo, if_true] at hs ⊢
            cases hup : i.updateOk with
            | false => simp [hup, isSuccess, hasOK200, hasErrorResponse] at hs
            | true =>
            simp only [hup, if_true] at hs ⊢
            exact ⟨_, rfl⟩

/-- C10 witness input: an owned png thumbnail upload that fully succeeds. -/
def c10Input : ThumbInput :=
  { videoIDResult := Except.ok ("v1"), bearerResult := Except.ok ("tok"),
    jwtResult := Except.ok ("alice"), parseFormResult := Except.ok (),
    formFileResult := Except.ok ("image/png"),
    readAllResult := Except.ok 9,
    getVideoResult := Except.ok aliceRec,
    createResult := Except.ok (), copyResult := Except.ok (),
    updateOk := true }

/-- C10 witness: the successful png upload above commits the fetched record
with only the thumbnail URL replaced. -/
theorem c10_single_field_frame_witness :
    ∃ u, committed (handlerUploadThumbnail exCfg c10Input) =
      some { aliceRec with thumbnailURL := some u } :=
  c10_single_field_frame.1 exCfg c10Input aliceRec rfl (by rfl)
